import Mathlib

/-!
Shallow embedding of the core consensus engine and the chain
synchronization FSM of the rusk repository.

Sources embedded:
  - src/consensus/src/config.rs        (constants)
  - src/consensus/src/consensus.rs     (spawn_consensus loop, consensus_delay)
  - src/consensus/src/proposal/handler.rs (verify_candidate_msg)
  - src/node/src/chain/fsm.rs          (SimpleFSM, InSyncImpl, OutOfSyncImpl)

Modelling conventions:
  - 32-byte hashes, BLS keys and socket addresses are modelled as `Nat`.
  - Wall-clock instants are `Nat` ticks (milliseconds for the FSM timers,
    seconds for the consensus spin delay, matching the unit each source
    site uses).
  - External collaborators (Database, Network, Acceptor, crypto) are
    modelled by their visible effect on the state the embedded function
    reads and writes; fallible collaborator calls whose outcome the code
    branches on (fallback revert, block finalization) are Boolean oracle
    parameters.
  - Rust `for`/`while` loops are embedded as structurally recursive
    functions with an explicit fuel argument that equals the exact bound
    of the source loop, so every definition is executable.
-/

namespace Rusk

/-! ## src/consensus/src/config.rs -/

/-- Maximum number of steps Consensus runs per a single round. -/
def CONSENSUS_MAX_STEP : Nat := 213

/-- Maximum number of iterations Consensus runs per a single round. -/
def CONSENSUS_MAX_ITER : Nat := CONSENSUS_MAX_STEP / 3

/-- Initial step timeout in milliseconds. -/
def CONSENSUS_TIMEOUT_MS : Nat := 5 * 1000

/-- Artificial delay on each Proposal step (declared in config.rs; the
consensus loop body in consensus.rs never reads it). -/
def CONSENSUS_DELAY_MS : Nat := 1000

/-- Relax (emergency) iteration threshold. -/
def RELAX_ITERATION_THRESHOLD : Nat := 10

/-! ## Consensus errors (variants used by the embedded sources) -/

/-- Protocol errors raised by the embedded consensus code paths. -/
inductive ConsensusError where
  | InvalidMsgType
  | NotCommitteeMember
  | UnknownBlockSize
  | InvalidBlockSize (size : Nat)
  | InvalidSignature
  | InvalidBlockHash
  | TooManyTransactions (n : Nat)
  | TooManyFaults (n : Nat)
  | InvalidBlock
  | Canceled (round : Nat)
deriving DecidableEq, Repr

/-! ## src/consensus/src/proposal/handler.rs : verify_candidate_msg

A `Candidate` message is modelled by the fields `verify_candidate_msg`
inspects.  `sizeRes` is the result of `p.candidate.size()` (`none` models
the serialization-size error), `sigValid` the result of
`p.verify_signature()`, and the transactions and faults are represented
directly by their digests (`t.digest()` is external crypto).  The merkle
root and the three limits (`MAX_BLOCK_SIZE`, `MAX_NUMBER_OF_TRANSACTIONS`,
`MAX_NUMBER_OF_FAULTS` are imported by handler.rs from a config version
not included in the excerpt) are parameters. -/

structure CandidateMsg where
  signer : Nat
  sizeRes : Option Nat
  sigValid : Bool
  chPrevHash : Nat
  hdrPrevHash : Nat
  txDigests : List Nat
  faultDigests : List Nat
  txroot : Nat
  faultroot : Nat
deriving DecidableEq, Repr

/-- Embedding of `verify_candidate_msg` (proposal/handler.rs, lines
153-213), checks in source order. -/
def verify_candidate_msg (merkleRoot : List Nat → Nat)
    (maxBlockSize maxTxs maxFaults : Nat)
    (expectedGenerator : Nat) (p : CandidateMsg) :
    Except ConsensusError Unit :=
  if expectedGenerator ≠ p.signer then
    .error .NotCommitteeMember
  else
    match p.sizeRes with
    | none => .error .UnknownBlockSize
    | some candidateSize =>
      if candidateSize > maxBlockSize then
        .error (.InvalidBlockSize candidateSize)
      else if ¬ p.sigValid then
        .error .InvalidSignature
      else if p.chPrevHash ≠ p.hdrPrevHash then
        .error .InvalidBlockHash
      else if p.txDigests.length > maxTxs then
        .error (.TooManyTransactions p.txDigests.length)
      else if merkleRoot p.txDigests ≠ p.txroot then
        .error .InvalidBlock
      else if p.faultDigests.length > maxFaults then
        .error (.TooManyFaults p.faultDigests.length)
      else if merkleRoot p.faultDigests ≠ p.faultroot then
        .error .InvalidBlock
      else
        .ok ()

/-! ## src/consensus/src/consensus.rs : spawn_consensus loop

The spawned task (lines 135-237) runs `loop { consensus_delay();
on_begin(iter); for phase in phases { msg = phase.run(ctx)?; ... };
on_close(); iter += 1 }`.  A phase run either yields the message passed to
the next phase or an error that the `?` operator surfaces, ending the
task.  The loop body contains no other exit: in particular it never
compares `iter` with `CONSENSUS_MAX_ITER`.  Phase outcomes are abstracted
by `phases : iteration → phase index (0,1,2) → Option ConsensusError`
(`none` = the phase completed and handed a message on).  `iter` is a Rust
`u8`, so the register wraps modulo 256; `fuel` bounds how many iterations
we unfold the (otherwise endless) loop. -/

/-- One iteration of the loop: the three phases run in order; the first
phase error aborts the iteration (and the task) with that error. -/
def runIteration (phases : Nat → Nat → Option ConsensusError) (iter : Nat) :
    Option ConsensusError :=
  match phases iter 0 with
  | some e => some e
  | none =>
    match phases iter 1 with
    | some e => some e
    | none => phases iter 2

/-- Observable status of the spawned consensus task after unfolding a
given number of loop iterations. -/
inductive LoopOutcome where
  | running (iter : Nat)
  | errored (iter : Nat) (e : ConsensusError)
deriving DecidableEq, Repr

/-- Embedding of the `loop` in `spawn_consensus` (consensus.rs, lines
187-236): run iterations starting at `iter`, for at most `fuel` of them;
`running it` means the loop is still going (with iteration register `it`)
after `fuel` full iterations. -/
def spawn_consensus_loop (phases : Nat → Nat → Option ConsensusError)
    (iter fuel : Nat) : LoopOutcome :=
  match fuel with
  | 0 => .running iter
  | f + 1 =>
    match runIteration phases iter with
    | some e => .errored iter e
    | none => spawn_consensus_loop phases ((iter + 1) % 256) f

/-! ## src/consensus/src/consensus.rs : consensus_delay (lines 240-288)

`consensus_delay` reads `RUSK_CONSENSUS_SPIN_TIME`, parses it as `u64`
(any parse failure yields 0), returns at once when the value is 0, and
otherwise sleeps in chunks until the wall clock passes the value, after
which it removes the environment variable.  Time is in UNIX seconds; the
idealized sleep advances `now` by exactly the chunk. -/

/-- Chunk sizes of the countdown (consensus.rs, lines 263-282), in
seconds. -/
def spinChunk (toWait : Nat) : Nat :=
  if 60 * 60 < toWait then 15 * 60
  else if 30 * 60 < toWait then 10 * 60
  else if 5 * 60 < toWait then 5 * 60
  else if 60 < toWait then 30
  else 1

/-- The `while spin_time > now` sleep loop, fueled: each pass advances
`now` by one chunk, and the gap `spin - now` shrinks by at least one per
pass, so `spin - now` initial fuel unfolds the loop completely.  Returns
the final value of `now`. -/
def spinWaitAux : Nat → Nat → Nat → Nat
  | 0, _, now => now
  | fuel + 1, spin, now =>
    if now < spin then spinWaitAux fuel spin (now + spinChunk (spin - now))
    else now

/-- Final wall-clock second at which the spin-wait loop exits. -/
def spinWait (spin now : Nat) : Nat := spinWaitAux (spin - now) spin now

/-- One decimal digit of a `u64` literal. -/
def charDigit (c : Char) : Option Nat :=
  if 48 ≤ c.toNat ∧ c.toNat ≤ 57 then some (c.toNat - 48) else none

/-- Decimal accumulation over the remaining characters; any non-digit
fails the parse. -/
def parseDigitsAux : List Char → Nat → Option Nat
  | [], acc => some acc
  | c :: cs, acc =>
    match charDigit c with
    | some d => parseDigitsAux cs (acc * 10 + d)
    | none => none

/-- Rust `str::parse::<u64>` on the numeric part: empty input and
non-digit characters fail; an optional leading plus sign is accepted. -/
def parseU64Str (s : String) : Option Nat :=
  match s.data with
  | [] => none
  | '+' :: cs => if cs.isEmpty then none else parseDigitsAux cs 0
  | cs => parseDigitsAux cs 0

/-- The `u64` parse of the environment variable: `env::var(..)
.unwrap_or_default().parse().unwrap_or_default()`; a missing variable,
a non-numeric string, and a value not fitting `u64` all give 0. -/
def parseSpinTime (envVar : Option String) : Nat :=
  match parseU64Str (envVar.getD "") with
  | some n => if n < 2 ^ 64 then n else 0
  | none => 0

/-- Result of one `consensus_delay` call: the wall-clock second at which
it returns and whether it removed `RUSK_CONSENSUS_SPIN_TIME`. -/
structure DelayOutcome where
  finalTime : Nat
  envRemoved : Bool
deriving DecidableEq, Repr

/-- Embedding of `consensus_delay` (consensus.rs, lines 240-288):
`envVar` is the current value of `RUSK_CONSENSUS_SPIN_TIME` and `now` the
current UNIX second. -/
def consensus_delay (envVar : Option String) (now : Nat) : DelayOutcome :=
  if parseSpinTime envVar = 0 then ⟨now, false⟩
  else ⟨spinWait (parseSpinTime envVar) now, true⟩

/-- Seconds spent inside one `consensus_delay` call. -/
def consensusDelayWaited (envVar : Option String) (now : Nat) : Nat :=
  (consensus_delay envVar now).finalTime - now

/-! ## src/node/src/chain/fsm.rs -/

/-- `MAX_BLOCKS_TO_REQUEST` (fsm.rs, line 31). -/
def MAX_BLOCKS_TO_REQUEST : Nat := 50

/-- `EXPIRY_TIMEOUT_MILLIS` (fsm.rs, line 32). -/
def EXPIRY_TIMEOUT_MILLIS : Nat := 5000

/-- `DEFAULT_ATT_CACHE_EXPIRY` (fsm.rs, line 33), in seconds. -/
def DEFAULT_ATT_CACHE_EXPIRY : Nat := 60

/-- The header fields of a ledger block that fsm.rs reads. -/
structure BlockH where
  height : Nat
  hash : Nat
  prevHash : Nat
  iteration : Nat
deriving DecidableEq, Repr

/-! ### Attestation cache (`SimpleFSM.attestations_cache`)

`HashMap<[u8;32], (Attestation, Instant)>` is modelled as an association
list of `(hash, attestation, expiry)` with unique keys; an attestation is
an opaque `Nat`, with 0 standing for `Attestation::default()`. -/

/-- `attestations_cache.get(&hash)` / `contains_key(&hash)`. -/
def cacheLookup (cache : List (Nat × Nat × Nat)) (hash : Nat) :
    Option (Nat × Nat × Nat) :=
  cache.find? (fun e => e.1 = hash)

/-- Embedding of `SimpleFSM::flood_request_block` (fsm.rs, lines
273-288): early return when the hash is already cached, otherwise insert
the attestation with a fresh expiry and flood-request the candidate.  The
Boolean records whether the network request was issued. -/
def flood_request_block (cache : List (Nat × Nat × Nat))
    (hash att now : Nat) : List (Nat × Nat × Nat) × Bool :=
  if (cacheLookup cache hash).isSome then (cache, false)
  else ((hash, att, now + DEFAULT_ATT_CACHE_EXPIRY) :: cache, true)

/-- A block as `attach_att_if_needed` sees it: its hash and its header
attestation (0 = `Attestation::default()`). -/
structure ABlock where
  hash : Nat
  att : Nat
deriving DecidableEq, Repr

/-- Embedding of `SimpleFSM::attach_att_if_needed` (fsm.rs, lines
431-458): when the block carries the default attestation, look the hash
up in the cache and attach the cached attestation, or drop the block
(`none`); then prune expired entries and remove the entry for this
block's hash.  Returns the (possibly attached) block and the updated
cache. -/
def attach_att_if_needed (cache : List (Nat × Nat × Nat)) (blk : ABlock)
    (now : Nat) : Option ABlock × List (Nat × Nat × Nat) :=
  ((if blk.att = 0 then
      match cacheLookup cache blk.hash with
      | some e => some { blk with att := e.2.1 }
      | none => none
    else some blk),
   (cache.filter (fun e => now < e.2.2)).filter (fun e => e.1 ≠ blk.hash))

/-! ### InSyncImpl -/

/-- `PresyncInfo` (fsm.rs, lines 42-67), without the wall-clock expiry
(only the heartbeat path reads it). -/
structure PresyncInfo where
  peerAddr : Nat
  startHeight : Nat
  target : BlockH
deriving DecidableEq, Repr

/-- The state `InSyncImpl::on_block_event` reads and writes: the tip, the
set of chain blocks in the Database (`chain`), the height of the latest
final block, the shared blacklist, and the presync slot. -/
structure InSyncState where
  tip : BlockH
  chain : List BlockH
  latestFinalHeight : Nat
  blacklist : List Nat
  presync : Option PresyncInfo
deriving DecidableEq, Repr

/-- `Ledger::fetch_block_header(hash)`. -/
def fetchHeaderByHash (chain : List BlockH) (h : Nat) : Option BlockH :=
  chain.find? (fun b => b.hash = h)

/-- `Ledger::get_block_exists(hash)`. -/
def get_block_exists (chain : List BlockH) (h : Nat) : Bool :=
  (fetchHeaderByHash chain h).isSome

/-- `Ledger::fetch_block_by_height(height)`. -/
def fetchByHeight (chain : List BlockH) (n : Nat) : Option BlockH :=
  chain.find? (fun b => b.height = n)

/-- Embedding of `InSyncImpl::on_block_event` (fsm.rs, lines 503-715).
`meta` is the optional source address, `revertOk` the outcome
`fallback::WithContext::try_revert` would report, `acceptFinalized` the
Boolean `try_accept_block` returns on the successor path.  The outer
`Option` is `none` on the panicking `.expect` / error paths; the result
component mirrors the Rust return value `Option<(Block, SocketAddr)>`
(the request to switch to OutOfSync).  `try_accept_block` is modelled as
setting the tip and storing the block. -/
def insync_on_block_event (st : InSyncState) (remote : BlockH)
    (meta : Option Nat) (revertOk : Bool) (acceptFinalized : Bool) :
    Option (InSyncState × Option (BlockH × Nat)) :=
  if remote.height ≤ st.tip.height then
    if remote.height = st.tip.height ∧ remote.hash = st.tip.hash then
      some (st, none)
    else if remote.height < st.tip.height ∧
        get_block_exists st.chain remote.hash then
      some (st, none)
    else if remote.height ≤ st.latestFinalHeight then
      some (st, none)
    else if ¬ get_block_exists st.chain remote.prevHash then
      -- received block from fork
      some (st, none)
    else
      match (if remote.height = st.tip.height then some st.tip
             else fetchByHeight st.chain remote.height) with
      | none => none
      | some localBlk =>
        if remote.iteration < localBlk.iteration then
          -- entering fallback
          match fetchHeaderByHash st.chain remote.prevHash with
          | none => none
          | some _prevHeader =>
            if revertOk then
              some ({ st with
                        tip := remote,
                        chain := remote :: st.chain,
                        blacklist := localBlk.hash :: st.blacklist },
                    none)
            else
              some (st, none)
        else
          -- Greater: send our local block to the peer (network only);
          -- Equal: double-candidate warning.  No state change.
          some (st, none)
  else if remote.height = st.tip.height + 1 then
    match (if acceptFinalized then
             { st with tip := remote, chain := remote :: st.chain,
                       blacklist := [] }
           else
             { st with tip := remote, chain := remote :: st.chain }) with
    | st2 =>
      match meta, st2.presync with
      | some src, some p =>
        if src = p.peerAddr ∧ remote.height = p.startHeight + 1 then
          some ({ st2 with presync := none }, some (p.target, p.peerAddr))
        else some (st2, none)
      | _, _ => some (st2, none)
  else
    match meta with
    | some src =>
      some ({ st with
                presync :=
                  if st.presync.isNone then
                    some ⟨src, st.tip.height, remote⟩
                  else st.presync },
            none)
    | none => some (st, none)

/-! ### OutOfSyncImpl -/

/-- The state `OutOfSyncImpl` carries (fsm.rs, lines 751-760) together
with the Acceptor's current height (`tipHeight`).  `startTime` is in
milliseconds. -/
structure OutOfSyncState where
  rangeStart : Nat
  rangeEnd : Nat
  startTime : Nat
  pool : List (Nat × BlockH)
  peerAddr : Nat
  attempts : Nat
  tipHeight : Nat
deriving DecidableEq, Repr

/-- `OutOfSyncImpl::new` (fsm.rs, lines 765-781): default range, empty
pool, placeholder peer, three attempts. -/
def outOfSync_new (tipHeight now : Nat) : OutOfSyncState :=
  { rangeStart := 0, rangeEnd := 0, startTime := now, pool := [],
    peerAddr := 0, attempts := 3, tipHeight := tipHeight }

/-- `OutOfSyncImpl::on_entering` (fsm.rs, lines 783-818): set the range,
clear the pool and stash the target block, record the peer. -/
def outOfSync_on_entering (st : OutOfSyncState) (blk : BlockH)
    (peer : Nat) : OutOfSyncState :=
  { st with
      rangeStart := st.tipHeight,
      rangeEnd := min (st.tipHeight + MAX_BLOCKS_TO_REQUEST) blk.height,
      pool := [(blk.height, blk)],
      peerAddr := peer }

/-- `pool.get(&height)`. -/
def poolLookup (pool : List (Nat × BlockH)) (h : Nat) : Option BlockH :=
  (pool.find? (fun p => p.1 = h)).map (fun p => p.2)

/-- `pool.insert(key, blk)` with `HashMap` replace semantics. -/
def poolInsert (pool : List (Nat × BlockH)) (k : Nat) (b : BlockH) :
    List (Nat × BlockH) :=
  (k, b) :: pool.filter (fun p => p.1 ≠ k)

/-- The `for height in (h + 1)..(range.1 + 1)` drain loop (fsm.rs, lines
864-870): accept consecutive pool blocks above `tip`, stopping at the
first missing height; the fuel `stop - tip` equals the number of loop
indices.  Returns the final accepted height. -/
def drainPoolAux : Nat → List (Nat × BlockH) → Nat → Nat
  | 0, _, tip => tip
  | fuel + 1, pool, tip =>
    match poolLookup pool (tip + 1) with
    | some _ => drainPoolAux fuel pool (tip + 1)
    | none => tip

/-- Result of `OutOfSyncImpl::on_block_event`: the new state, the Rust
return value (`true` = transit back to InSync) and whether
`restart_consensus` was invoked. -/
structure OosBlockRes where
  st : OutOfSyncState
  transit : Bool
  restarted : Bool
deriving DecidableEq, Repr

/-- Embedding of `OutOfSyncImpl::on_block_event` (fsm.rs, lines
826-896).  `now` is the wall clock in milliseconds. -/
def oos_on_block_event (st : OutOfSyncState) (blk : BlockH)
    (meta : Option Nat) (now : Nat) : OosBlockRes :=
  if st.startTime + EXPIRY_TIMEOUT_MILLIS ≤ now then
    -- Timeout-ed sync-up: restart consensus, transit back to InSync
    ⟨st, true, true⟩
  else if blk.height ≤ st.tipHeight then
    ⟨st, false, false⟩
  else if blk.height = st.tipHeight + 1 then
    if st.rangeEnd ≤
        drainPoolAux (st.rangeEnd - blk.height) st.pool blk.height then
      -- sync target reached: restart consensus, transit to InSync
      ⟨{ st with
           tipHeight :=
             drainPoolAux (st.rangeEnd - blk.height) st.pool blk.height,
           startTime :=
             if meta = some st.peerAddr then now else st.startTime },
        true, true⟩
    else
      ⟨{ st with
           tipHeight :=
             drainPoolAux (st.rangeEnd - blk.height) st.pool blk.height,
           startTime :=
             if meta = some st.peerAddr then now else st.startTime },
        false, false⟩
  else
    if st.pool.length < MAX_BLOCKS_TO_REQUEST then
      ⟨{ st with pool := poolInsert st.pool blk.height blk }, false, false⟩
    else
      ⟨st, false, false⟩

/-- Result of `OutOfSyncImpl::on_heartbeat`: new state, transit flag,
whether consensus was restarted, and the block heights put into the
flood-request `Inv`. -/
structure OosHbRes where
  st : OutOfSyncState
  transit : Bool
  restarted : Bool
  requested : List Nat
deriving DecidableEq, Repr

/-- Embedding of `OutOfSyncImpl::on_heartbeat` (fsm.rs, lines 898-947):
on expiry, either give up (attempts exhausted) or flood-request the
heights `range.0 + 1 ..= range.1 + 1` missing from the pool, reset the
timer and decrement attempts. -/
def oos_on_heartbeat (st : OutOfSyncState) (now : Nat) : OosHbRes :=
  if st.startTime + EXPIRY_TIMEOUT_MILLIS ≤ now then
    if st.attempts = 0 then
      ⟨st, true, true, []⟩
    else
      ⟨{ st with startTime := now, attempts := st.attempts - 1 },
        false, false,
        (List.range' (st.rangeStart + 1)
            (st.rangeEnd + 2 - (st.rangeStart + 1))).filter
          (fun h => (poolLookup st.pool h).isNone)⟩
  else
    ⟨st, false, false, []⟩

/-- Folding a sequence of block events through the OutOfSync handler
(each event is a block, its optional source address, and the wall
clock at arrival). -/
def oosRunEvents (st : OutOfSyncState)
    (evs : List (BlockH × Option Nat × Nat)) : OutOfSyncState :=
  evs.foldl (fun s e => (oos_on_block_event s e.1 e.2.1 e.2.2).st) st

/-! ### SimpleFSM wrapper around the OutOfSync state

`SimpleFSM::on_block_event` (fsm.rs, lines 164-180), OutOfSync arm: when
the inner handler asks to transit, it runs `on_exiting` (pool clear) and
then `InSyncImpl::on_entering(blk)` (fsm.rs, lines 484-495), which
accepts `blk` whenever its height is exactly the current height + 1. -/

/-- Observable outcome of one OutOfSync-state block event at the
`SimpleFSM` level. -/
structure FsmOosRes where
  inSyncNow : Bool
  tipHeight : Nat
  restarted : Bool
deriving DecidableEq, Repr

/-- `SimpleFSM::on_block_event`, OutOfSync arm, including the
`InSyncImpl::on_entering` acceptance performed during the transition. -/
def fsm_oos_block_step (st : OutOfSyncState) (blk : BlockH)
    (meta : Option Nat) (now : Nat) : FsmOosRes :=
  match oos_on_block_event st blk meta now with
  | r =>
    if r.transit then
      ⟨true,
        (if blk.height = r.st.tipHeight + 1 then blk.height
         else r.st.tipHeight),
        r.restarted⟩
    else
      ⟨false, r.st.tipHeight, r.restarted⟩

/-! ### Concrete instances used by counterexamples and witnesses -/

/-- Genesis-like block. -/
def exPrev : BlockH := ⟨0, 5, 99, 0⟩

/-- A tip at height 1, hash 10, iteration 5, child of `exPrev`. -/
def exTip : BlockH := ⟨1, 10, 5, 5⟩

/-- A competing block at the tip's height with a lower iteration and the
same parent. -/
def exRemote : BlockH := ⟨1, 20, 5, 2⟩

/-- InSync state whose tip is also the latest final block. -/
def exFinalTipState : InSyncState := ⟨exTip, [exTip, exPrev], 1, [], none⟩

/-- InSync state whose tip is not final. -/
def exLiveTipState : InSyncState := ⟨exTip, [exTip, exPrev], 0, [], none⟩

/-- OutOfSync state with sync range (0, 2), an empty pool and one
remaining attempt. -/
def exHbState : OutOfSyncState := ⟨0, 2, 0, [], 7, 1, 0⟩

/-- OutOfSync state with two remaining attempts. -/
def exHbState2 : OutOfSyncState := ⟨0, 2, 0, [], 7, 2, 0⟩

/-- OutOfSync state syncing heights 10..40 with tip at 10. -/
def exOosState : OutOfSyncState := ⟨10, 40, 0, [], 7, 3, 10⟩

/-- A block at height 11 (the OutOfSync tip's successor). -/
def exBlk11 : BlockH := ⟨11, 42, 10, 0⟩

/-- A block at height 30 (not the successor). -/
def exBlk30 : BlockH := ⟨30, 43, 10, 0⟩

/-- A stand-in computable merkle root for witnesses. -/
def sumRootModel (l : List Nat) : Nat := l.foldl (fun a b => a + b) 1

/-- A candidate message that satisfies every verification condition
against generator 7, size limit 100, tx and fault limits 10 under
`sumRootModel`. -/
def okCandidateMsg : CandidateMsg := ⟨7, some 50, true, 3, 3, [], [], 1, 1⟩

/-! ## Helper lemmas -/

/-- Every countdown chunk is at least one second. -/
theorem spinChunk_pos (toWait : Nat) : 1 ≤ spinChunk toWait := by
  unfold spinChunk
  split_ifs <;> omega

/-- With fuel at least the remaining gap, the spin-wait loop only exits
once the clock has reached the spin time. -/
theorem le_spinWaitAux :
    ∀ fuel spin now, spin - now ≤ fuel → spin ≤ spinWaitAux fuel spin now
  | 0, _, _, h => by
    simp only [spinWaitAux]
    omega
  | fuel + 1, spin, now, h => by
    by_cases hlt : now < spin
    · simp only [spinWaitAux, if_pos hlt]
      exact le_spinWaitAux fuel spin _
        (by have := spinChunk_pos (spin - now); omega)
    · simp only [spinWaitAux, if_neg hlt]
      omega

/-- The spin-wait loop never returns before the spin time. -/
theorem spin_le_spinWait (spin now : Nat) : spin ≤ spinWait spin now :=
  le_spinWaitAux (spin - now) spin now (Nat.le_refl _)

/-- With error-free phases the consensus loop is still running after any
number of iterations (the register wraps as a `u8`). -/
theorem spawn_consensus_loop_noerr
    (phases : Nat → Nat → Option ConsensusError)
    (hph : ∀ i p, phases i p = none) :
    ∀ fuel iter, iter < 256 →
      spawn_consensus_loop phases iter fuel =
        .running ((iter + fuel) % 256)
  | 0, iter, h => by
    simp [spawn_consensus_loop, Nat.mod_eq_of_lt h]
  | fuel + 1, iter, h => by
    simp only [spawn_consensus_loop, runIteration, hph]
    rw [spawn_consensus_loop_noerr phases hph fuel ((iter + 1) % 256)
      (Nat.mod_lt _ (by omega))]
    congr 1
    rw [Nat.mod_add_mod]
    omega

/-- The pool drain never lowers the accepted height. -/
theorem le_drainPoolAux :
    ∀ fuel pool tip, tip ≤ drainPoolAux fuel pool tip
  | 0, _, tip => Nat.le_refl tip
  | fuel + 1, pool, tip => by
    simp only [drainPoolAux]
    cases hp : poolLookup pool (tip + 1) with
    | some b =>
      exact Nat.le_trans (Nat.le_succ tip)
        (le_drainPoolAux fuel pool (tip + 1))
    | none => exact Nat.le_refl tip

/-- A single OutOfSync block event never lowers the tip height. -/
theorem oos_tip_mono (st : OutOfSyncState) (blk : BlockH)
    (meta : Option Nat) (now : Nat) :
    st.tipHeight ≤ (oos_on_block_event st blk meta now).st.tipHeight := by
  have hd := le_drainPoolAux (st.rangeEnd - blk.height) st.pool blk.height
  unfold oos_on_block_event
  split_ifs <;> simp <;> omega

/-- Folding any event sequence never lowers the tip height. -/
theorem oosRunEvents_mono :
    ∀ (evs : List (BlockH × Option Nat × Nat)) (st : OutOfSyncState),
      st.tipHeight ≤ (oosRunEvents st evs).tipHeight
  | [], _ => Nat.le_refl _
  | e :: evs, st =>
    Nat.le_trans (oos_tip_mono st e.1 e.2.1 e.2.2)
      (oosRunEvents_mono evs _)

/-! ## Claim C1 -/

set_option maxRecDepth 8000

/-- C1 counterexample: with error-free phases the consensus loop is
still running after 100 iterations, strictly more than
CONSENSUS_MAX_ITER = 71; it never stops at MAX_ITER and never surfaces a
NotReady outcome. -/
theorem consensus_loop_runs_beyond_max_iter :
    spawn_consensus_loop (fun _ _ => none) 0 100 = .running 100 ∧
    CONSENSUS_MAX_ITER < 100 := by decide

/-- C1 (amended): the consensus loop body has no iteration cap: with
error-free phases it is still running after any number `fuel` of
iterations; it exits only on a phase error or external cancellation.
`CONSENSUS_MAX_ITER` is defined as 213 / 3 = 71 but never consulted by
the loop. -/
theorem consensus_loop_never_caps
    (phases : Nat → Nat → Option ConsensusError) (fuel : Nat)
    (hph : ∀ i p, phases i p = none) :
    spawn_consensus_loop phases 0 fuel = .running (fuel % 256) ∧
    CONSENSUS_MAX_STEP = 213 ∧ CONSENSUS_MAX_ITER = 71 := by
  refine ⟨?_, rfl, rfl⟩
  simpa using spawn_consensus_loop_noerr phases hph fuel 0 (by omega)

/-- C1 witness: the amended theorem at the always-successful phase
oracle and 300 iterations. -/
theorem consensus_loop_never_caps_witness :
    spawn_consensus_loop (fun _ _ => none) 0 300 = .running (300 % 256) ∧
    CONSENSUS_MAX_STEP = 213 ∧ CONSENSUS_MAX_ITER = 71 :=
  consensus_loop_never_caps (fun _ _ => none) 300 (fun _ _ => rfl)

/-! ## Claim C8 -/

/-- C8 counterexample: with `RUSK_CONSENSUS_SPIN_TIME` unset, the delay
call the loop makes at the start of an iteration waits 0 ms, not
CONSENSUS_DELAY_MS = 1000 ms. -/
theorem consensus_delay_no_per_iteration_wait :
    consensusDelayWaited none 123 = 0 ∧ CONSENSUS_DELAY_MS = 1000 ∧
    consensusDelayWaited none 123 ≠ CONSENSUS_DELAY_MS := by decide

/-- C8 (amended): the per-iteration `consensus_delay` call waits only
for the optional one-shot `RUSK_CONSENSUS_SPIN_TIME`; with the variable
unset (or 0) it returns immediately, and it contains no
CONSENSUS_DELAY_MS wait and no test-mode branch.  CONSENSUS_DELAY_MS =
1000 is declared in config.rs for the Proposal step. -/
theorem consensus_delay_only_spin (now : Nat) :
    consensus_delay none now = ⟨now, false⟩ ∧
    consensusDelayWaited none now = 0 ∧
    consensus_delay (some "0") now = ⟨now, false⟩ ∧
    CONSENSUS_DELAY_MS = 1000 := by
  have h0 : parseSpinTime none = 0 := by decide
  have h1 : parseSpinTime (some "0") = 0 := by decide
  refine ⟨?_, ?_, ?_, rfl⟩
  · simp [consensus_delay, h0]
  · simp [consensusDelayWaited, consensus_delay, h0]
  · simp [consensus_delay, h1]

/-! ## Claim C10 -/

/-- C10: a zero parse (variable unset, "0", or unparsable) makes
`consensus_delay` return immediately without touching the environment;
a positive spin time makes it wait until the clock passes that moment
and then remove the variable. -/
theorem consensus_delay_spec (envVar : Option String) (now : Nat) :
    (parseSpinTime envVar = 0 → consensus_delay envVar now = ⟨now, false⟩) ∧
    (0 < parseSpinTime envVar →
      (consensus_delay envVar now).envRemoved = true ∧
      parseSpinTime envVar ≤ (consensus_delay envVar now).finalTime) ∧
    parseSpinTime none = 0 ∧ parseSpinTime (some "") = 0 ∧
    parseSpinTime (some "0") = 0 ∧
    parseSpinTime (some "not a number") = 0 := by
  refine ⟨?_, ?_, by decide, by decide, by decide, by decide⟩
  · intro h
    unfold consensus_delay
    rw [if_pos h]
  · intro h
    have hne : ¬ parseSpinTime envVar = 0 := by omega
    unfold consensus_delay
    rw [if_neg hne]
    exact ⟨rfl, spin_le_spinWait _ _⟩

/-- C10 witness: with the variable set to second 5 and the clock at 0,
the delay removes the variable and returns no earlier than second 5. -/
theorem consensus_delay_spec_witness :
    (consensus_delay (some "5") 0).envRemoved = true ∧
    5 ≤ (consensus_delay (some "5") 0).finalTime := by
  have h := (consensus_delay_spec (some "5") 0).2.1 (by decide)
  exact ⟨h.1, Nat.le_trans (by decide) h.2⟩

/-! ## Claim C2 -/

/-- C2 counterexample: a same-height remote block with a different hash,
a strictly lower iteration and its prev-hash in the local chain, and a
revert that would succeed — yet, because the tip coincides with the
latest final block, `on_block_event` leaves the tip and the blacklist
unchanged instead of falling back. -/
theorem insync_final_tip_no_fallback :
    exRemote.height = exFinalTipState.tip.height ∧
    exRemote.hash ≠ exFinalTipState.tip.hash ∧
    exRemote.iteration < exFinalTipState.tip.iteration ∧
    get_block_exists exFinalTipState.chain exRemote.prevHash = true ∧
    insync_on_block_event exFinalTipState exRemote none true false =
      some (exFinalTipState, none) ∧
    exFinalTipState.tip.hash ≠ exRemote.hash ∧
    exFinalTipState.blacklist = [] := by decide

/-- C2 (amended): if additionally the tip is strictly above the latest
final block, then with a successful revert the tip becomes the remote
block and the previous tip's hash is blacklisted, while a failed revert
leaves the state unchanged. -/
theorem insync_fallback_spec (st : InSyncState) (remote : BlockH)
    (meta : Option Nat) (acceptFinalized : Bool)
    (hh : remote.height = st.tip.height)
    (hne : remote.hash ≠ st.tip.hash)
    (hit : remote.iteration < st.tip.iteration)
    (hprev : get_block_exists st.chain remote.prevHash = true)
    (hfin : st.latestFinalHeight < st.tip.height) :
    insync_on_block_event st remote meta true acceptFinalized =
      some ({ st with
                tip := remote,
                chain := remote :: st.chain,
                blacklist := st.tip.hash :: st.blacklist }, none) ∧
    insync_on_block_event st remote meta false acceptFinalized =
      some (st, none) := by
  have hpb : ∃ pb, fetchHeaderByHash st.chain remote.prevHash = some pb := by
    have := hprev
    unfold get_block_exists at this
    exact Option.isSome_iff_exists.mp this
  obtain ⟨pb, hpb⟩ := hpb
  constructor <;>
  · unfold insync_on_block_event
    rw [if_pos (Nat.le_of_eq hh)]
    rw [if_neg (by rintro ⟨-, h2⟩; exact hne h2)]
    rw [if_neg (by rintro ⟨hlt, -⟩; omega)]
    rw [if_neg (by omega)]
    rw [if_neg (by simp [hprev])]
    rw [if_pos hh]
    simp only []
    rw [if_pos hit, hpb]
    simp

/-- C2 witness: the amended theorem at a concrete non-final tip. -/
theorem insync_fallback_spec_witness :
    insync_on_block_event exLiveTipState exRemote none true false =
      some ({ exLiveTipState with
                tip := exRemote,
                chain := exRemote :: exLiveTipState.chain,
                blacklist :=
                  exLiveTipState.tip.hash :: exLiveTipState.blacklist },
            none) ∧
    insync_on_block_event exLiveTipState exRemote none false false =
      some (exLiveTipState, none) :=
  insync_fallback_spec exLiveTipState exRemote none false (by decide)
    (by decide) (by decide) (by decide) (by decide)

/-! ## Claim C3 -/

/-- C3: in OutOfSync the tip height never decreases across any event
sequence; a stale block (height at most the tip, before expiry) leaves
the state untouched, and any block that is not the immediate successor
leaves the tip height unchanged. -/
theorem oos_monotone_spec (st : OutOfSyncState)
    (evs : List (BlockH × Option Nat × Nat)) :
    st.tipHeight ≤ (oosRunEvents st evs).tipHeight ∧
    (∀ blk meta now, now < st.startTime + EXPIRY_TIMEOUT_MILLIS →
       blk.height ≤ st.tipHeight →
       oos_on_block_event st blk meta now = ⟨st, false, false⟩) ∧
    (∀ blk meta now, blk.height ≠ st.tipHeight + 1 →
       (oos_on_block_event st blk meta now).st.tipHeight = st.tipHeight) := by
  refine ⟨oosRunEvents_mono evs st, ?_, ?_⟩
  · intro blk meta now hnow hle
    unfold oos_on_block_event
    rw [if_neg (by omega), if_pos hle]
  · intro blk meta now hne
    unfold oos_on_block_event
    split_ifs <;> simp_all

/-- C3 witness: monotonicity over a concrete event sequence, and a
concrete stale block being ignored. -/
theorem oos_monotone_spec_witness :
    exOosState.tipHeight ≤
      (oosRunEvents exOosState [(exBlk11, some 7, 100)]).tipHeight ∧
    oos_on_block_event exOosState exPrev none 0 =
      ⟨exOosState, false, false⟩ :=
  ⟨(oos_monotone_spec exOosState [(exBlk11, some 7, 100)]).1,
   (oos_monotone_spec exOosState [(exBlk11, some 7, 100)]).2.1 exPrev none 0
     (by decide) (by decide)⟩

/-! ## Claim C5 -/

/-- C5 counterexample: with range (0, 2) and an empty pool, the expired
heartbeat flood-requests heights [1, 2, 3] — height 3 lies beyond the
sync range's end 2, so the requested set is not exactly the missing
heights within the range. -/
theorem oos_heartbeat_requests_beyond_range :
    (oos_on_heartbeat exHbState 5000).requested = [1, 2, 3] ∧
    exHbState.rangeStart = 0 ∧ exHbState.rangeEnd = 2 ∧
    exHbState.pool = [] ∧
    3 ∈ (oos_on_heartbeat exHbState 5000).requested ∧
    ¬ 3 ≤ exHbState.rangeEnd := by decide

/-- C5 (amended): on an expired heartbeat, depleted attempts restart
consensus and transit back to InSync; otherwise the handler
flood-requests exactly the pool-missing heights from range.start + 1 up
to range.end + 1 inclusive (one height past the range's end), resets the
timer and decrements attempts; a fresh OutOfSync state starts with 3
attempts. -/
theorem oos_heartbeat_spec (st : OutOfSyncState) (now : Nat)
    (hexp : st.startTime + EXPIRY_TIMEOUT_MILLIS ≤ now) :
    (st.attempts = 0 → oos_on_heartbeat st now = ⟨st, true, true, []⟩) ∧
    (st.attempts ≠ 0 →
      (oos_on_heartbeat st now).st =
        { st with startTime := now, attempts := st.attempts - 1 } ∧
      (oos_on_heartbeat st now).transit = false ∧
      (oos_on_heartbeat st now).restarted = false ∧
      (∀ h, h ∈ (oos_on_heartbeat st now).requested ↔
        (st.rangeStart + 1 ≤ h ∧ h ≤ st.rangeEnd + 1 ∧
         (poolLookup st.pool h).isNone = true))) ∧
    (outOfSync_new st.tipHeight st.startTime).attempts = 3 := by
  refine ⟨?_, ?_, rfl⟩
  · intro h0
    unfold oos_on_heartbeat
    rw [if_pos hexp, if_pos h0]
  · intro hne
    unfold oos_on_heartbeat
    rw [if_pos hexp, if_neg hne]
    refine ⟨rfl, rfl, rfl, ?_⟩
    intro h
    simp only [List.mem_filter, List.mem_range'_1]
    constructor
    · rintro ⟨⟨hge, hlt⟩, hnone⟩
      exact ⟨hge, by omega, by simpa using hnone⟩
    · rintro ⟨hge, hle, hnone⟩
      exact ⟨⟨hge, by omega⟩, by simpa using hnone⟩

/-- C5 witness: the amended theorem at range (0, 2), empty pool, two
attempts left. -/
theorem oos_heartbeat_spec_witness :
    (oos_on_heartbeat exHbState2 5000).st =
      { exHbState2 with startTime := 5000, attempts := 1 } ∧
    (3 ∈ (oos_on_heartbeat exHbState2 5000).requested ↔
      (exHbState2.rangeStart + 1 ≤ 3 ∧ 3 ≤ exHbState2.rangeEnd + 1 ∧
       (poolLookup exHbState2.pool 3).isNone = true)) := by
  have h := (oos_heartbeat_spec exHbState2 5000 (by decide)).2.1 (by decide)
  exact ⟨h.1, h.2.2.2 3⟩

/-! ## Claim C9 -/

/-- C9 counterexample: after the sync expiry, a block event at exactly
tip height + 1 transits back to InSync but the incoming block is
accepted by `InSyncImpl::on_entering` during the transition — the tip
moves from 10 to 11, so the exit is not "without attempting to accept
the incoming block, regardless of the block's height". -/
theorem oos_expired_block_event_accepts_successor :
    exOosState.startTime + EXPIRY_TIMEOUT_MILLIS ≤ 5000 ∧
    exOosState.tipHeight = 10 ∧ exBlk11.height = 11 ∧
    fsm_oos_block_step exOosState exBlk11 none 5000 =
      ⟨true, 11, true⟩ := by decide

/-- C9 (amended): on an expired OutOfSync block event the handler
itself restarts consensus and signals the transit without touching the
state; the block gets accepted only by the subsequent
`InSyncImpl::on_entering` of the transition, and only when it sits at
exactly tip height + 1 — at any other height the tip is unchanged. -/
theorem oos_expiry_exit_spec (st : OutOfSyncState) (blk : BlockH)
    (meta : Option Nat) (now : Nat)
    (hexp : st.startTime + EXPIRY_TIMEOUT_MILLIS ≤ now) :
    oos_on_block_event st blk meta now = ⟨st, true, true⟩ ∧
    fsm_oos_block_step st blk meta now =
      ⟨true,
       (if blk.height = st.tipHeight + 1 then blk.height
        else st.tipHeight),
       true⟩ := by
  have h1 : oos_on_block_event st blk meta now = ⟨st, true, true⟩ := by
    unfold oos_on_block_event
    rw [if_pos hexp]
  refine ⟨h1, ?_⟩
  unfold fsm_oos_block_step
  rw [h1]
  simp

/-- C9 witness: the amended theorem at a block far from the tip — the
transition happens and the tip stays at 10. -/
theorem oos_expiry_exit_spec_witness :
    oos_on_block_event exOosState exBlk30 none 5000 =
      ⟨exOosState, true, true⟩ ∧
    fsm_oos_block_step exOosState exBlk30 none 5000 =
      ⟨true,
       (if exBlk30.height = exOosState.tipHeight + 1 then exBlk30.height
        else exOosState.tipHeight),
       true⟩ :=
  oos_expiry_exit_spec exOosState exBlk30 none 5000 (by decide)

/-! ## Claim C6 -/

/-- C6 counterexample: inserting (hash 5, attestation 9) at time 0 and
again at time 10 yields one entry whose expiry is still 0 + 60 = 60: the
second insertion does not refresh the expiry (a refresh would give
10 + 60 = 70). -/
theorem att_cache_second_insert_no_refresh :
    (flood_request_block (flood_request_block [] 5 9 0).1 5 9 10).1 =
      [(5, 9, 60)] ∧
    (60 : Nat) ≠ 10 + DEFAULT_ATT_CACHE_EXPIRY := by decide

/-- C6 (amended): caching the same (hash, attestation) twice yields
exactly one entry, but the second call is a complete no-op — it neither
refreshes the expiry (which stays at the first insertion's) nor issues
another flood request; any call on an already-cached hash returns the
cache unchanged. -/
theorem flood_request_block_spec (hash att now1 now2 : Nat) :
    (flood_request_block [] hash att now1).1 =
      [(hash, att, now1 + DEFAULT_ATT_CACHE_EXPIRY)] ∧
    flood_request_block (flood_request_block [] hash att now1).1 hash
        att now2 =
      ((flood_request_block [] hash att now1).1, false) ∧
    (∀ cache, (cacheLookup cache hash).isSome = true →
       flood_request_block cache hash att now2 = (cache, false)) := by
  have h1 : (flood_request_block [] hash att now1).1 =
      [(hash, att, now1 + DEFAULT_ATT_CACHE_EXPIRY)] := by
    simp [flood_request_block, cacheLookup]
  refine ⟨h1, ?_, ?_⟩
  · rw [h1]
    simp [flood_request_block, cacheLookup]
  · intro cache hc
    unfold flood_request_block
    rw [if_pos hc]

/-- C6 witness: the no-op clause at a concrete cached entry. -/
theorem flood_request_block_spec_witness :
    flood_request_block [(5, 9, 60)] 5 9 10 = ([(5, 9, 60)], false) :=
  (flood_request_block_spec 5 9 0 10).2.2 [(5, 9, 60)] (by decide)

/-! ## Claim C7 -/

/-- C7: with a default (0) attestation the block gets the cached
attestation attached, or is dropped when the cache has no entry; a
non-default attestation passes through; afterwards the entry for the
block's hash is gone and every surviving entry is unexpired. -/
theorem attach_att_spec (cache : List (Nat × Nat × Nat)) (blk : ABlock)
    (now : Nat) :
    (∀ e, blk.att = 0 → cacheLookup cache blk.hash = some e →
       (attach_att_if_needed cache blk now).1 =
         some { blk with att := e.2.1 }) ∧
    (blk.att = 0 → cacheLookup cache blk.hash = none →
       (attach_att_if_needed cache blk now).1 = none) ∧
    (blk.att ≠ 0 → (attach_att_if_needed cache blk now).1 = some blk) ∧
    cacheLookup (attach_att_if_needed cache blk now).2 blk.hash = none ∧
    (∀ e, e ∈ (attach_att_if_needed cache blk now).2 → now < e.2.2) := by
  refine ⟨?_, ?_, ?_, ?_, ?_⟩
  · intro e h0 hl
    simp [attach_att_if_needed, h0, hl]
  · intro h0 hl
    simp [attach_att_if_needed, h0, hl]
  · intro h0
    simp [attach_att_if_needed, h0]
  · simp only [attach_att_if_needed, cacheLookup]
    rw [List.find?_eq_none]
    intro x hx
    simp only [List.mem_filter] at hx
    simpa using hx.2
  · intro e he
    simp only [attach_att_if_needed, List.mem_filter] at he
    simpa using he.1.2

/-- C7 witness: a block with the default attestation gets attestation 9
attached from the cache. -/
theorem attach_att_spec_witness :
    (attach_att_if_needed [(5, 9, 60)] ⟨5, 0⟩ 10).1 =
      some { hash := 5, att := 9 } :=
  (attach_att_spec [(5, 9, 60)] ⟨5, 0⟩ 10).1 (5, 9, 60) rfl (by decide)

/-! ## Claim C4 -/

set_option maxHeartbeats 1600000

/-- C4: candidate verification succeeds exactly when the signer is the
expected generator, the size is known and within the limit, the
signature is valid, the consensus-header prev-hash matches the
candidate's, the transaction and fault counts are within their limits,
and both recomputed merkle roots match; and each returned error
corresponds to a violated condition. -/
theorem verify_candidate_msg_spec (merkleRoot : List Nat → Nat)
    (maxBlockSize maxTxs maxFaults expectedGenerator : Nat)
    (p : CandidateMsg) :
    (verify_candidate_msg merkleRoot maxBlockSize maxTxs maxFaults
        expectedGenerator p = .ok () ↔
      (expectedGenerator = p.signer ∧
       (∃ sz, p.sizeRes = some sz ∧ sz ≤ maxBlockSize) ∧
       p.sigValid = true ∧
       p.chPrevHash = p.hdrPrevHash ∧
       p.txDigests.length ≤ maxTxs ∧
       merkleRoot p.txDigests = p.txroot ∧
       p.faultDigests.length ≤ maxFaults ∧
       merkleRoot p.faultDigests = p.faultroot)) ∧
    (verify_candidate_msg merkleRoot maxBlockSize maxTxs maxFaults
        expectedGenerator p = .error .NotCommitteeMember →
      expectedGenerator ≠ p.signer) ∧
    (verify_candidate_msg merkleRoot maxBlockSize maxTxs maxFaults
        expectedGenerator p = .error .UnknownBlockSize →
      p.sizeRes = none) ∧
    (∀ s, verify_candidate_msg merkleRoot maxBlockSize maxTxs maxFaults
        expectedGenerator p = .error (.InvalidBlockSize s) →
      p.sizeRes = some s ∧ maxBlockSize < s) ∧
    (verify_candidate_msg merkleRoot maxBlockSize maxTxs maxFaults
        expectedGenerator p = .error .InvalidSignature →
      p.sigValid = false) ∧
    (verify_candidate_msg merkleRoot maxBlockSize maxTxs maxFaults
        expectedGenerator p = .error .InvalidBlockHash →
      p.chPrevHash ≠ p.hdrPrevHash) ∧
    (∀ n, verify_candidate_msg merkleRoot maxBlockSize maxTxs maxFaults
        expectedGenerator p = .error (.TooManyTransactions n) →
      n = p.txDigests.length ∧ maxTxs < n) ∧
    (∀ n, verify_candidate_msg merkleRoot maxBlockSize maxTxs maxFaults
        expectedGenerator p = .error (.TooManyFaults n) →
      n = p.faultDigests.length ∧ maxFaults < n) ∧
    (verify_candidate_msg merkleRoot maxBlockSize maxTxs maxFaults
        expectedGenerator p = .error .InvalidBlock →
      merkleRoot p.txDigests ≠ p.txroot ∨
      merkleRoot p.faultDigests ≠ p.faultroot) := by
  obtain ⟨sg, szr, sv, chp, hdp, txs, fls, txr, fr⟩ := p
  rcases szr with _ | sz <;>
    simp only [verify_candidate_msg] <;>
    split_ifs <;>
    simp_all

/-- C4 witness: a fully conforming candidate message verifies, via the
success direction of the characterization. -/
theorem verify_candidate_msg_spec_witness :
    verify_candidate_msg sumRootModel 100 10 10 7 okCandidateMsg =
      .ok () :=
  (verify_candidate_msg_spec sumRootModel 100 10 10 7 okCandidateMsg).1.mpr
    ⟨rfl, ⟨50, rfl, by decide⟩, rfl, rfl, by decide, rfl, by decide, rfl⟩

end Rusk
